import Mathlib

/-
  Verification development for the WeTreat medical-consultation backend
  (Express + PostgreSQL + pdfkit, several snapshots of backend/index.js).

  The data model and the request handlers relevant to the EMR lifecycle and
  the report renderer are embedded shallowly below:

  - JVal models a JSONB value as the pg driver hands it to JavaScript;
    jsonParse models JSON.parse (returning none where JSON.parse throws),
    jsonStringify models JSON.stringify, truthy models JavaScript
    truthiness of such a value.
  - Emr models one row of the emrs table (superset schema including the
    doctor_diagnosis column added by the later snapshots).
  - Each backend snapshot gets its own namespace:
      Gated    - the first snapshot of backend/index.js (full-overwrite PUT,
                 payment-gated PDF, unfiltered GET /api/emrs),
      Sparse   - the hardened snapshot of backend/index.js (sparse PUT,
                 ungated PDF with guarded logo fetch, GET /api/emrs that
                 strips patient_password),
      LastPro  - backend/lastproindex.js (doctor full-record overwrite that
                 forces status, payment-gated PDF, unguarded logo fetch),
      Multi    - backend/multiindex.js (query-parameter language selection),
      I18n     - the i18next snapshot (pickRequestLng language resolution).
-/

/-- A JSON value as delivered by the node-postgres driver for a JSONB
column (or built by JSON.parse).  Numbers keep their source lexeme, and
nothing below depends on numeric normalisation. -/
inductive JVal where
  | jnull : JVal
  | jbool : Bool → JVal
  | jnum : String → JVal
  | jstr : String → JVal
  | jarr : List JVal → JVal
  | jobj : List (String × JVal) → JVal

/-- The double-quote character, kept out of character-literal syntax. -/
def quoteChar : Char := Char.ofNat 34

/-- The backslash character, kept out of character-literal syntax. -/
def backslashChar : Char := Char.ofNat 92

/-- The opening curly brace character. -/
def lbraceChar : Char := Char.ofNat 123

/-- The closing curly brace character. -/
def rbraceChar : Char := Char.ofNat 125

/-- JSON insignificant whitespace. -/
def isJsonWs (c : Char) : Bool :=
  c = ' ' || c = '\t' || c = '\n' || c = '\r'

def skipWs : List Char → List Char
  | [] => []
  | c :: cs => if isJsonWs c then skipWs cs else c :: cs

def isDigitCh (c : Char) : Bool := '0' ≤ c && c ≤ '9'

def hexVal (c : Char) : Option Nat :=
  if '0' ≤ c && c ≤ '9' then some (c.toNat - 48)
  else if 'a' ≤ c && c ≤ 'f' then some (c.toNat - 87)
  else if 'A' ≤ c && c ≤ 'F' then some (c.toNat - 55)
  else none

/-- Body of a JSON string literal (after the opening quote), with the
standard escape sequences; mirrors what JSON.parse accepts.  Fuel-indexed
for structural termination. -/
def parseStrAux : Nat → List Char → List Char → Option (String × List Char)
  | 0, _, _ => none
  | Nat.succ _, [], _ => none
  | Nat.succ fuel, c :: cs, acc =>
    if c = quoteChar then some (String.mk acc.reverse, cs)
    else if c = backslashChar then
      match cs with
      | [] => none
      | e :: cs2 =>
        if e = quoteChar then parseStrAux fuel cs2 (quoteChar :: acc)
        else if e = backslashChar then parseStrAux fuel cs2 (backslashChar :: acc)
        else if e = '/' then parseStrAux fuel cs2 ('/' :: acc)
        else if e = 'b' then parseStrAux fuel cs2 ('\x08' :: acc)
        else if e = 'f' then parseStrAux fuel cs2 ('\x0c' :: acc)
        else if e = 'n' then parseStrAux fuel cs2 ('\n' :: acc)
        else if e = 'r' then parseStrAux fuel cs2 ('\r' :: acc)
        else if e = 't' then parseStrAux fuel cs2 ('\t' :: acc)
        else if e = 'u' then
          match cs2 with
          | h1 :: h2 :: h3 :: h4 :: cs3 =>
            match hexVal h1, hexVal h2, hexVal h3, hexVal h4 with
            | some a, some b, some c3, some d =>
              parseStrAux fuel cs3 (Char.ofNat (a * 4096 + b * 256 + c3 * 16 + d) :: acc)
            | _, _, _, _ => none
          | _ => none
        else none
    else if c.toNat < 32 then none
    else parseStrAux fuel cs (c :: acc)

/-- JSON number grammar; returns the accepted lexeme and the rest. -/
def parseNum (cs : List Char) : Option (String × List Char) :=
  let (sign, cs1) :=
    match cs with
    | c :: rest => if c = '-' then ([c], rest) else ([], cs)
    | [] => ([], cs)
  match cs1 with
  | [] => none
  | c :: rest =>
    if ¬ isDigitCh c then none
    else
      let (intPart, cs2) :=
        if c = '0' then ([c], rest)
        else
          let (ds, r) := cs1.span isDigitCh
          (ds, r)
      let (fracPart, cs3) :=
        match cs2 with
        | p :: r2 =>
          if p = '.' then
            let (ds, r3) := r2.span isDigitCh
            if ds = [] then ([], cs2) else (p :: ds, r3)
          else ([], cs2)
        | [] => ([], cs2)
      let fracOk : Bool :=
        match cs2 with
        | p :: _ => if p = '.' then !fracPart.isEmpty else true
        | [] => true
      if fracOk = false then none
      else
        let (expPart, cs4) :=
          match cs3 with
          | p :: r2 =>
            if p = 'e' || p = 'E' then
              let (sgn, r3) :=
                match r2 with
                | q :: r4 => if q = '+' || q = '-' then ([q], r4) else ([], r2)
                | [] => ([], r2)
              let (ds, r5) := r3.span isDigitCh
              if ds = [] then ([], cs3) else (p :: (sgn ++ ds), r5)
            else ([], cs3)
          | [] => ([], cs3)
        let expOk : Bool :=
          match cs3 with
          | p :: _ => if p = 'e' || p = 'E' then !expPart.isEmpty else true
          | [] => true
        if expOk = false then none
        else some (String.mk (sign ++ intPart ++ fracPart ++ expPart), cs4)

mutual

/-- One JSON value; models JSON.parse (fuel-indexed recursive descent). -/
def parseVal : Nat → List Char → Option (JVal × List Char)
  | 0, _ => none
  | Nat.succ fuel, cs0 =>
    let cs := skipWs cs0
    match cs with
    | [] => none
    | c :: rest =>
      if c = quoteChar then
        match parseStrAux (Nat.succ fuel) rest [] with
        | some (s, r) => some (JVal.jstr s, r)
        | none => none
      else if c = '[' then
        let cs2 := skipWs rest
        match cs2 with
        | c2 :: rest2 =>
          if c2 = ']' then some (JVal.jarr [], rest2)
          else
            match parseElems fuel cs2 [] with
            | some (l, r) => some (JVal.jarr l, r)
            | none => none
        | [] => none
      else if c = lbraceChar then
        let cs2 := skipWs rest
        match cs2 with
        | c2 :: rest2 =>
          if c2 = rbraceChar then some (JVal.jobj [], rest2)
          else
            match parseFields fuel cs2 [] with
            | some (fs, r) => some (JVal.jobj fs, r)
            | none => none
        | [] => none
      else if c = 'n' then
        match rest with
        | 'u' :: 'l' :: 'l' :: r => some (JVal.jnull, r)
        | _ => none
      else if c = 't' then
        match rest with
        | 'r' :: 'u' :: 'e' :: r => some (JVal.jbool true, r)
        | _ => none
      else if c = 'f' then
        match rest with
        | 'a' :: 'l' :: 's' :: 'e' :: r => some (JVal.jbool false, r)
        | _ => none
      else if c = '-' || isDigitCh c then
        match parseNum cs with
        | some (lex, r) => some (JVal.jnum lex, r)
        | none => none
      else none

/-- Array elements after the opening bracket (at least one element). -/
def parseElems : Nat → List Char → List JVal → Option (List JVal × List Char)
  | 0, _, _ => none
  | Nat.succ fuel, cs, acc =>
    match parseVal fuel cs with
    | none => none
    | some (v, rest) =>
      let rest2 := skipWs rest
      match rest2 with
      | c :: rest3 =>
        if c = ',' then parseElems fuel rest3 (v :: acc)
        else if c = ']' then some ((v :: acc).reverse, rest3)
        else none
      | [] => none

/-- Object members after the opening brace (at least one member). -/
def parseFields : Nat → List Char → List (String × JVal) →
    Option (List (String × JVal) × List Char)
  | 0, _, _ => none
  | Nat.succ fuel, cs0, acc =>
    let cs := skipWs cs0
    match cs with
    | [] => none
    | c :: rest =>
      if c = quoteChar then
        match parseStrAux (Nat.succ fuel) rest [] with
        | none => none
        | some (key, r1) =>
          let r2 := skipWs r1
          match r2 with
          | c2 :: r3 =>
            if c2 = ':' then
              match parseVal fuel r3 with
              | none => none
              | some (v, r4) =>
                let r5 := skipWs r4
                match r5 with
                | c3 :: r6 =>
                  if c3 = ',' then parseFields fuel r6 ((key, v) :: acc)
                  else if c3 = rbraceChar then some (((key, v) :: acc).reverse, r6)
                  else none
                | [] => none
            else none
          | [] => none
      else none

end

/-- JSON.parse: parses the whole string (trailing whitespace allowed),
returning none where JSON.parse would throw. -/
def jsonParse (s : String) : Option JVal :=
  match parseVal (2 * s.length + 16) s.data with
  | some (v, rest) => if skipWs rest = [] then some v else none
  | none => none

/-- Whether a JSON number lexeme denotes the numeric value zero (its
mantissa digits are all zero); used for JavaScript truthiness. -/
def isZeroLex (lex : String) : Bool :=
  let ds := match lex.data with
    | c :: rest => if c = '-' then rest else lex.data
    | [] => []
  let mantissa := ds.takeWhile (fun c => c ≠ 'e' && c ≠ 'E')
  mantissa.all (fun c => c = '0' || c = '.')

/-- JavaScript truthiness of a JSONB value. -/
def truthy : JVal → Bool
  | JVal.jnull => false
  | JVal.jbool b => b
  | JVal.jnum lex => !(isZeroLex lex)
  | JVal.jstr s => !(s = "")
  | JVal.jarr _ => true
  | JVal.jobj _ => true

mutual

/-- JavaScript string conversion of a value, as used by template
interpolation; arrays display like Array.prototype.toString. -/
def jsDisplay : JVal → String
  | JVal.jnull => "null"
  | JVal.jbool b => if b then "true" else "false"
  | JVal.jnum lex => lex
  | JVal.jstr s => s
  | JVal.jarr l => jsDisplayList l
  | JVal.jobj _ => "[object Object]"

/-- Array elements joined by a comma; null elements display as empty. -/
def jsDisplayList : List JVal → String
  | [] => ""
  | [x] => jsDisplayElem x
  | x :: xs => jsDisplayElem x ++ "," ++ jsDisplayList xs

/-- One array element inside a join: null becomes the empty string. -/
def jsDisplayElem : JVal → String
  | JVal.jnull => ""
  | JVal.jbool b => if b then "true" else "false"
  | JVal.jnum lex => lex
  | JVal.jstr s => s
  | JVal.jarr l => jsDisplayList l
  | JVal.jobj _ => "[object Object]"

end

/-- Array.prototype.join with an explicit separator (null elements render
as the empty string, all others via jsDisplay). -/
def jsJoin (sep : String) (l : List JVal) : String :=
  String.intercalate sep (l.map jsDisplayElem)

/-- Key lookup in an object, last binding winning (a duplicate key in a
JSON text keeps the last value, as JSON.parse does). -/
def lookupLastKey : List (String × JVal) → String → Option JVal
  | [], _ => none
  | (k2, v2) :: rest, key =>
    match lookupLastKey rest key with
    | some r => some r
    | none => if k2 = key then some v2 else none

/-- Property access d.k on a JSONB value: undefined (none) unless the
value is an object carrying the key. -/
def getProp (v : JVal) (k : String) : Option JVal :=
  match v with
  | JVal.jobj fields => lookupLastKey fields k
  | _ => none

/-- Lowercase hexadecimal digit. -/
def hexDigit (n : Nat) : Char :=
  if n < 10 then Char.ofNat (48 + n) else Char.ofNat (87 + n)

/-- JSON string escaping as performed by JSON.stringify. -/
def escapeJsonChar (c : Char) : List Char :=
  if c = quoteChar then [backslashChar, quoteChar]
  else if c = backslashChar then [backslashChar, backslashChar]
  else if c = '\n' then [backslashChar, 'n']
  else if c = '\r' then [backslashChar, 'r']
  else if c = '\t' then [backslashChar, 't']
  else if c = '\x08' then [backslashChar, 'b']
  else if c = '\x0c' then [backslashChar, 'f']
  else if c.toNat < 32 then
    [backslashChar, 'u', '0', '0', hexDigit (c.toNat / 16), hexDigit (c.toNat % 16)]
  else [c]

def encodeJsonString (s : String) : String :=
  String.mk (quoteChar :: s.data.foldr (fun c acc => escapeJsonChar c ++ acc) [quoteChar])

mutual

/-- JSON.stringify on a JSONB value. -/
def jsonStringify : JVal → String
  | JVal.jnull => "null"
  | JVal.jbool b => if b then "true" else "false"
  | JVal.jnum lex => lex
  | JVal.jstr s => encodeJsonString s
  | JVal.jarr l => "[" ++ stringifyElems l ++ "]"
  | JVal.jobj fs => String.singleton lbraceChar ++ stringifyFields fs ++ String.singleton rbraceChar

def stringifyElems : List JVal → String
  | [] => ""
  | [x] => jsonStringify x
  | x :: xs => jsonStringify x ++ "," ++ stringifyElems xs

def stringifyFields : List (String × JVal) → String
  | [] => ""
  | [(k, v)] => encodeJsonString k ++ ":" ++ jsonStringify v
  | (k, v) :: rest => encodeJsonString k ++ ":" ++ jsonStringify v ++ "," ++ stringifyFields rest

end

/-- The inline safe-parse helper of the hardened PDF routes:
falsy input gives the empty list, a native array is kept, a string is
parsed (an unparsable or non-array string gives the empty list), and
anything else gives the empty list. -/
def safeArray (v : Option JVal) : List JVal :=
  match v with
  | none => []
  | some x =>
    if truthy x = false then []
    else
      match x with
      | JVal.jarr l => l
      | JVal.jstr s =>
        match jsonParse s with
        | some (JVal.jarr l) => l
        | _ => []
      | _ => []

/-- One row of the emrs table.  Nullable TEXT columns are Option String;
JSONB columns are Option JVal; is_payment_confirmed is a nullable BOOLEAN
(DEFAULT FALSE); created_at and updated_at are timestamps modeled as Nat.
The schema is the superset used by the later snapshots (it includes
doctor_diagnosis, absent only from the very first snapshot). -/
structure Emr where
  id : String
  patient_email : String
  patient_password : String
  patient_name : Option String
  patient_dob : Option String
  symptoms : Option String
  medical_history : Option String
  current_medication : Option String
  medical_documents : Option JVal
  patient_notes : Option String
  assigned_doctor_id : Option String
  consultation_type : Option JVal
  doctor_diagnosis : Option String
  doctor_report : Option String
  doctor_recommendations : Option String
  doctor_private_notes : Option String
  admin_notes : Option String
  is_payment_confirmed : Option Bool
  status : String
  created_at : Nat
  updated_at : Nat

/-- The slice of a doctor_profiles row used by the EMR endpoints. -/
structure DoctorProfile where
  user_id : String
  full_name : String

/-- SELECT ... FROM emrs WHERE id = $1 via rows[0]. -/
def findEmr (store : List Emr) (id : String) : Option Emr :=
  store.find? (fun e => e.id == id)

/-- The LEFT JOIN doctor_profiles dp ON e.assigned_doctor_id = dp.user_id,
projected to dp.full_name (null when unassigned or no profile row). -/
def joinDoctorName (profiles : List DoctorProfile) (e : Emr) : Option String :=
  match e.assigned_doctor_id with
  | none => none
  | some did => (profiles.find? (fun p => p.user_id == did)).map (fun p => p.full_name)

/-- JavaScript x || d for a nullable text column: null and the empty
string both fall back to the default. -/
def orDefault (v : Option String) (d : String) : String :=
  match v with
  | none => d
  | some s => if s = "" then d else s

/-- The uniform x || 'N/A' placeholder of the renderers. -/
def orNA (v : Option String) : String := orDefault v "N/A"

/-- Raw template interpolation of a nullable column with no fallback
(as in the first snapshot, where a null renders as the text null). -/
def tmplOpt (v : Option String) : String :=
  match v with
  | none => "null"
  | some s => s

/-- Locale date formatting of a stored date is abstracted to the stored
text (new Date(x).toLocaleDateString() in the source). -/
def dateDisplay (s : String) : String := s

/-- The || 'N/A' fallback applied to a property of a JSONB object, as in
the medical-document lines of the renderers. -/
def jsOrNA (v : Option JVal) : String :=
  match v with
  | none => "N/A"
  | some x => if truthy x then jsDisplay x else "N/A"

/-- The sparse PUT route body: role-owned fields of the updates object.
Each field is none when the key is absent; for nullable columns the inner
Option distinguishes an explicit null from a text value.  The status
column is NOT NULL, so its submitted value is modeled as a string. -/
structure UpdatePayload where
  assignedDoctorId : Option (Option String)
  isPaymentConfirmed : Option (Option Bool)
  adminNotes : Option (Option String)
  status : Option String
  doctorDiagnosis : Option (Option String)
  doctorReport : Option (Option String)
  doctorRecommendations : Option (Option String)
  doctorPrivateNotes : Option (Option String)
  consultationType : Option JVal
  symptoms : Option (Option String)
  medicalHistory : Option (Option String)
  currentMedication : Option (Option String)
  medicalDocuments : Option JVal

/-- Outcome of a PUT /api/emrs/:id request. -/
inductive PutResult where
  | badRequest : PutResult
  | forbidden : PutResult
  | okNoUpdates : PutResult
  | okUpdated : PutResult
  | storeError : PutResult
deriving DecidableEq

/-- HTTP status code of a PUT outcome. -/
def statusOfPut : PutResult → Nat
  | PutResult.badRequest => 400
  | PutResult.forbidden => 403
  | PutResult.okNoUpdates => 200
  | PutResult.okUpdated => 200
  | PutResult.storeError => 500

/-- One piece of streamed PDF content: an embedded image or a text line. -/
inductive PdfItem where
  | image : String → PdfItem
  | line : String → PdfItem

/-- Outcome of a GET /api/emrs/:id/generate-pdf request. -/
inductive PdfOutcome where
  | notFound : String → PdfOutcome
  | paymentNotConfirmed : String → PdfOutcome
  | serverError : String → PdfOutcome
  | ok : String → List PdfItem → PdfOutcome

/-- HTTP status code of a PDF outcome. -/
def statusOf : PdfOutcome → Nat
  | PdfOutcome.notFound _ => 404
  | PdfOutcome.paymentNotConfirmed _ => 403
  | PdfOutcome.serverError _ => 500
  | PdfOutcome.ok _ _ => 200

/-- The streamed body of a PDF outcome: empty unless the request was
answered with the document. -/
def itemsOf : PdfOutcome → List PdfItem
  | PdfOutcome.ok _ items => items
  | _ => []

/-- The text lines of streamed PDF content. -/
def textOf (o : PdfOutcome) : List String :=
  (itemsOf o).filterMap (fun it =>
    match it with
    | PdfItem.line s => some s
    | PdfItem.image _ => none)

/-- The embedded images of streamed PDF content. -/
def imagesOf (o : PdfOutcome) : List String :=
  (itemsOf o).filterMap (fun it =>
    match it with
    | PdfItem.image d => some d
    | PdfItem.line _ => none)

/-- The request signals a generate-pdf handler can observe, together with
caller-identity data that a client might attach (none of the handlers
reads the identity fields; the noninterference theorems make that
explicit).  bodyLng, headerLang, queryLng and detected are the i18n
signals (req.body.lng, the x-wetreat-lang header, query lng, and the
middleware-detected req.language); queryLang is the query parameter of
the multilingual snapshot. -/
structure PdfRequest where
  emrId : String
  bodyLng : Option String
  headerLang : Option String
  queryLng : Option String
  queryLang : Option String
  detected : Option String
  userId : Option String
  userRole : Option String
  authToken : Option String

/-- Stable insertion of one row into a list already ordered by created_at
descending (ties keep their original relative order). -/
def insertDesc (e : Emr) : List Emr → List Emr
  | [] => [e]
  | x :: xs => if x.created_at < e.created_at then e :: x :: xs else x :: insertDesc e xs

/-- ORDER BY created_at DESC, as a stable sort of the stored rows. -/
def sortDesc : List Emr → List Emr
  | [] => []
  | x :: xs => insertDesc x (sortDesc xs)

/-- A row with its patient secret blanked; two stores with the same scrub
image differ at most in patient_password values. -/
def scrub (e : Emr) : Emr :=
  { e with patient_password := "" }

/-- A response row of the hardened GET /api/emrs: every column of the
stored row except patient_password. -/
structure EmrView where
  id : String
  patient_email : String
  patient_name : Option String
  patient_dob : Option String
  symptoms : Option String
  medical_history : Option String
  current_medication : Option String
  medical_documents : Option JVal
  patient_notes : Option String
  assigned_doctor_id : Option String
  consultation_type : Option JVal
  doctor_diagnosis : Option String
  doctor_report : Option String
  doctor_recommendations : Option String
  doctor_private_notes : Option String
  admin_notes : Option String
  is_payment_confirmed : Option Bool
  status : String
  created_at : Nat
  updated_at : Nat

/-- The destructuring map of the hardened GET /api/emrs handler: keep
every property of the row except patient_password. -/
def toView (e : Emr) : EmrView :=
  { id := e.id
    patient_email := e.patient_email
    patient_name := e.patient_name
    patient_dob := e.patient_dob
    symptoms := e.symptoms
    medical_history := e.medical_history
    current_medication := e.current_medication
    medical_documents := e.medical_documents
    patient_notes := e.patient_notes
    assigned_doctor_id := e.assigned_doctor_id
    consultation_type := e.consultation_type
    doctor_diagnosis := e.doctor_diagnosis
    doctor_report := e.doctor_report
    doctor_recommendations := e.doctor_recommendations
    doctor_private_notes := e.doctor_private_notes
    admin_notes := e.admin_notes
    is_payment_confirmed := e.is_payment_confirmed
    status := e.status
    created_at := e.created_at
    updated_at := e.updated_at }

/-- WHERE assigned_doctor_id = $1 with the userId query parameter: a SQL
null on either side matches nothing. -/
def assignedTo (userId : Option String) (e : Emr) : Bool :=
  match e.assigned_doctor_id, userId with
  | some a, some u => a == u
  | _, _ => false

namespace Gated

/-
  First snapshot of backend/index.js: full-overwrite PUT /api/emrs/:id,
  GET /api/emrs without stripping, and the payment-gated PDF route with
  no logo fetch.
-/

/-- The admin UPDATE of the full-overwrite PUT, once a status value is in
hand: every admin column is rewritten from the payload (an absent key has
become a SQL null), and updated_at is bumped. -/
def adminSet (u : UpdatePayload) (s : String) (now : Nat) (e : Emr) : Emr :=
  { e with
    assigned_doctor_id :=
      match u.assignedDoctorId with
      | some v => v
      | none => none
    is_payment_confirmed :=
      match u.isPaymentConfirmed with
      | some v => v
      | none => none
    status := s
    updated_at := now }

/-- The doctor UPDATE of the full-overwrite PUT: every doctor column is
rewritten from the payload (consultation_type through JSON.stringify; an
absent key has become a SQL null), and updated_at is bumped. -/
def doctorSet (u : UpdatePayload) (s : String) (now : Nat) (e : Emr) : Emr :=
  { e with
    doctor_report :=
      match u.doctorReport with
      | some v => v
      | none => none
    doctor_recommendations :=
      match u.doctorRecommendations with
      | some v => v
      | none => none
    doctor_private_notes :=
      match u.doctorPrivateNotes with
      | some v => v
      | none => none
    consultation_type :=
      match u.consultationType with
      | some v => some (JVal.jstr (jsonStringify v))
      | none => none
    status := s
    updated_at := now }

/-- PUT /api/emrs/:id of the first snapshot.  A missing updates object
makes the handler dereference undefined, which the catch turns into a
500.  A missing status key sends a SQL null into the NOT NULL status
column: the statement fails (500) whenever a row is actually updated,
and silently succeeds when the id matches nothing. -/
def putEmr (store : List Emr) (id : String) (role : String)
    (updates : Option UpdatePayload) (now : Nat) : PutResult × List Emr :=
  match updates with
  | none => (PutResult.storeError, store)
  | some u =>
    if role = "admin" then
      match u.status with
      | none =>
        if store.any (fun e => e.id == id) then (PutResult.storeError, store)
        else (PutResult.okUpdated, store)
      | some s =>
        (PutResult.okUpdated,
         store.map (fun e => if e.id == id then adminSet u s now e else e))
    else if role = "doctor" then
      match u.status with
      | none =>
        if store.any (fun e => e.id == id) then (PutResult.storeError, store)
        else (PutResult.okUpdated, store)
      | some s =>
        (PutResult.okUpdated,
         store.map (fun e => if e.id == id then doctorSet u s now e else e))
    else (PutResult.forbidden, store)

/-- Outcome of GET /api/emrs in the first snapshot: full rows, including
patient_password. -/
inductive EmrsResult where
  | forbidden : EmrsResult
  | rowsFull : List Emr → EmrsResult

/-- The patient_password column of every returned row, as exposed by the
first snapshot (used to observe the leak). -/
def exposedPasswords : EmrsResult → List String
  | EmrsResult.forbidden => []
  | EmrsResult.rowsFull l => l.map (fun e => e.patient_password)

/-- GET /api/emrs of the first snapshot: admin sees every row, doctor
sees own-assigned rows, anyone else is refused; the rows are sent as
stored, patient_password included. -/
def getEmrs (store : List Emr) (userId userRole : Option String) : EmrsResult :=
  if userRole = some "admin" then EmrsResult.rowsFull (sortDesc store)
  else if userRole = some "doctor" then
    EmrsResult.rowsFull (sortDesc (store.filter (assignedTo userId)))
  else EmrsResult.forbidden

/-- The PDF content of the first snapshot (its renderer interpolates
patient_name with no fallback, so a null renders as the text null). -/
def render (e : Emr) (doctorName : Option String) : List PdfItem :=
  [PdfItem.line "Medical Consultation Report",
   PdfItem.line ("Patient Name: " ++ tmplOpt e.patient_name),
   PdfItem.line ("Consulting Physician: " ++ orNA doctorName),
   PdfItem.line "Physician\x27s Report",
   PdfItem.line (orDefault e.doctor_report "Pending report..."),
   PdfItem.line "Recommendations",
   PdfItem.line (orDefault e.doctor_recommendations "Pending recommendations...")]

/-- GET /api/emrs/:id/generate-pdf of the first snapshot: 404 when the id
is unknown, 403 before any rendering when is_payment_confirmed is not
true, otherwise the complete document. -/
def generatePdf (store : List Emr) (profiles : List DoctorProfile) (id : String) :
    PdfOutcome :=
  match findEmr store id with
  | none => PdfOutcome.notFound "EMR not found."
  | some e =>
    if e.is_payment_confirmed = some true then
      PdfOutcome.ok ("Report_" ++ e.id ++ ".pdf") (render e (joinDoctorName profiles e))
    else PdfOutcome.paymentNotConfirmed "Payment not confirmed."

end Gated

namespace Sparse

/-
  Hardened snapshot of backend/index.js: sparse PUT /api/emrs/:id with
  per-key ownership checks and an empty-update short circuit, GET
  /api/emrs that strips patient_password, and an ungated PDF route with
  hardened JSONB parsing and a guarded (non-fatal) logo fetch.
-/

/-- Whether the admin branch of the sparse PUT collects any assignment
(the admin-owned keys are assignedDoctorId and status). -/
def adminClauses (u : UpdatePayload) : Bool :=
  u.assignedDoctorId.isSome || u.status.isSome

/-- Whether the doctor branch of the sparse PUT collects any assignment
(the doctor-owned keys are doctorDiagnosis, doctorReport,
doctorRecommendations, doctorPrivateNotes, consultationType, status). -/
def doctorClauses (u : UpdatePayload) : Bool :=
  u.doctorDiagnosis.isSome || u.doctorReport.isSome ||
  u.doctorRecommendations.isSome || u.doctorPrivateNotes.isSome ||
  u.consultationType.isSome || u.status.isSome

/-- The admin assignment set applied to one row: only the keys present in
the payload are assigned, plus the updated_at touch. -/
def applyAdmin (u : UpdatePayload) (now : Nat) (e : Emr) : Emr :=
  { e with
    assigned_doctor_id :=
      match u.assignedDoctorId with
      | some v => v
      | none => e.assigned_doctor_id
    status :=
      match u.status with
      | some s => s
      | none => e.status
    updated_at := now }

/-- The doctor assignment set applied to one row: only the keys present
in the payload are assigned (consultationType through JSON.stringify),
plus the updated_at touch. -/
def applyDoctor (u : UpdatePayload) (now : Nat) (e : Emr) : Emr :=
  { e with
    doctor_diagnosis :=
      match u.doctorDiagnosis with
      | some v => v
      | none => e.doctor_diagnosis
    doctor_report :=
      match u.doctorReport with
      | some v => v
      | none => e.doctor_report
    doctor_recommendations :=
      match u.doctorRecommendations with
      | some v => v
      | none => e.doctor_recommendations
    doctor_private_notes :=
      match u.doctorPrivateNotes with
      | some v => v
      | none => e.doctor_private_notes
    consultation_type :=
      match u.consultationType with
      | some v => some (JVal.jstr (jsonStringify v))
      | none => e.consultation_type
    status :=
      match u.status with
      | some s => s
      | none => e.status
    updated_at := now }

/-- PUT /api/emrs/:id of the hardened snapshot: 400 when no updates
object is sent, 403 on an unrecognized role, a 200 no-op (row untouched)
when no owned key is present, otherwise one conditional UPDATE keyed by
id; the response is 200 whether or not a row matched. -/
def putEmr (store : List Emr) (id : String) (role : String)
    (updates : Option UpdatePayload) (now : Nat) : PutResult × List Emr :=
  match updates with
  | none => (PutResult.badRequest, store)
  | some u =>
    if role = "admin" then
      if adminClauses u then
        (PutResult.okUpdated,
         store.map (fun e => if e.id == id then applyAdmin u now e else e))
      else (PutResult.okNoUpdates, store)
    else if role = "doctor" then
      if doctorClauses u then
        (PutResult.okUpdated,
         store.map (fun e => if e.id == id then applyDoctor u now e else e))
      else (PutResult.okNoUpdates, store)
    else (PutResult.forbidden, store)

/-- Outcome of GET /api/emrs in the hardened snapshot: response rows with
patient_password stripped. -/
inductive EmrsResult where
  | forbidden : EmrsResult
  | rows : List EmrView → EmrsResult

/-- GET /api/emrs of the hardened snapshot: admin sees every row, doctor
sees own-assigned rows, anyone else is refused; every response row is the
stored row minus patient_password. -/
def getEmrs (store : List Emr) (userId userRole : Option String) : EmrsResult :=
  if userRole = some "admin" then EmrsResult.rows ((sortDesc store).map toView)
  else if userRole = some "doctor" then
    EmrsResult.rows ((sortDesc (store.filter (assignedTo userId))).map toView)
  else EmrsResult.forbidden

/-- One rendered medical-document line of the hardened PDF route. -/
def docLine (d : JVal) : String :=
  "- " ++ jsOrNA (getProp d "name") ++ ": " ++ jsOrNA (getProp d "url") ++
  " (Password: " ++ jsOrNA (getProp d "password") ++ ")"

/-- The medical-documents section of the hardened PDF route: a header and
one line per safeArray entry, or the N/A marker when the decoded list is
empty. -/
def medicalDocsLines (v : Option JVal) : List String :=
  let mdocs := safeArray v
  if mdocs.length > 0 then
    "Medical Documents:" :: mdocs.map docLine
  else
    ["Medical Documents:", "N/A"]

/-- The consultation-type display of the hardened PDF route: the decoded
types joined by comma-space, or N/A when the decoded list is empty. -/
def typesDisplay (v : Option JVal) : String :=
  let types := safeArray v
  if types.length > 0 then jsJoin ", " types else "N/A"

/-- The PDF content of the hardened route, in source order; the logo
contributes an image item only when its fetch succeeded. -/
def render (e : Emr) (doctorName : Option String) (logo : Option String)
    (now : String) : List PdfItem :=
  (match logo with
   | some l => [PdfItem.image l]
   | none => []) ++
  [PdfItem.line "Medical Consultation Report",
   PdfItem.line "Patient Data",
   PdfItem.line ("Name: " ++ orNA e.patient_name),
   PdfItem.line ("Date of Birth: " ++
     (match e.patient_dob with
      | some d => dateDisplay d
      | none => "N/A")),
   PdfItem.line "Symptoms:",
   PdfItem.line (orNA e.symptoms),
   PdfItem.line "Medical History:",
   PdfItem.line (orNA e.medical_history),
   PdfItem.line "Current Medication:",
   PdfItem.line (orNA e.current_medication)] ++
  (medicalDocsLines e.medical_documents).map PdfItem.line ++
  [PdfItem.line "Physician\x27s Report",
   PdfItem.line "Diagnosis:",
   PdfItem.line (orNA e.doctor_diagnosis),
   PdfItem.line "Report & Findings:",
   PdfItem.line (orNA e.doctor_report),
   PdfItem.line "Recommendations:",
   PdfItem.line (orNA e.doctor_recommendations),
   PdfItem.line "Consultation Type(s):",
   PdfItem.line (typesDisplay e.consultation_type),
   PdfItem.line ("Report generated on: " ++ now),
   PdfItem.line "_________________________",
   PdfItem.line ("Dr. " ++ orDefault doctorName "Physician" ++ " Signature")]

/-- GET /api/emrs/:id/generate-pdf of the hardened snapshot: 404 when the
id is unknown (no fetch attempted), otherwise one guarded logo-fetch
attempt whose failure only omits the image, never the response.  The
second component counts fetch attempts. -/
def generatePdf (store : List Emr) (profiles : List DoctorProfile) (id : String)
    (fetchResult : Except String String) (now : String) : PdfOutcome × Nat :=
  match findEmr store id with
  | none => (PdfOutcome.notFound "EMR not found.", 0)
  | some e =>
    let logo : Option String :=
      match fetchResult with
      | Except.ok l => some l
      | Except.error _ => none
    (PdfOutcome.ok ("Report_" ++ e.id ++ ".pdf")
       (render e (joinDoctorName profiles e) logo now), 1)

/-- The same route viewed at the request level: of the whole request the
handler reads only req.params.id. -/
def generatePdfReq (store : List Emr) (profiles : List DoctorProfile)
    (r : PdfRequest) (fetchResult : Except String String) (now : String) :
    PdfOutcome × Nat :=
  generatePdf store profiles r.emrId fetchResult now

end Sparse

namespace LastPro

/-
  backend/lastproindex.js: admin full overwrite as in the first snapshot;
  the doctor branch overwrites the whole record (patient fields included)
  and forces status to report_complete; the PDF route is payment-gated
  and awaits the logo fetch unguarded, so a fetch failure lands in the
  catch and aborts the request with a 500.
-/

/-- The doctor UPDATE of lastproindex.js: patient and clinical columns
are all rewritten from the payload (the JSONB ones through
JSON.stringify; an absent key has become a SQL null), and status is the
literal report_complete regardless of the payload. -/
def doctorSet (u : UpdatePayload) (now : Nat) (e : Emr) : Emr :=
  { e with
    symptoms :=
      match u.symptoms with
      | some v => v
      | none => none
    medical_history :=
      match u.medicalHistory with
      | some v => v
      | none => none
    current_medication :=
      match u.currentMedication with
      | some v => v
      | none => none
    medical_documents :=
      match u.medicalDocuments with
      | some v => some (JVal.jstr (jsonStringify v))
      | none => none
    doctor_diagnosis :=
      match u.doctorDiagnosis with
      | some v => v
      | none => none
    doctor_report :=
      match u.doctorReport with
      | some v => v
      | none => none
    doctor_recommendations :=
      match u.doctorRecommendations with
      | some v => v
      | none => none
    doctor_private_notes :=
      match u.doctorPrivateNotes with
      | some v => v
      | none => none
    consultation_type :=
      match u.consultationType with
      | some v => some (JVal.jstr (jsonStringify v))
      | none => none
    status := "report_complete"
    updated_at := now }

/-- PUT /api/emrs/:id of lastproindex.js.  The admin branch behaves as in
the first snapshot (a missing status key would write a SQL null into the
NOT NULL status column, a 500 whenever a row matches); the doctor branch
always has a status value, the fixed terminal one. -/
def putEmr (store : List Emr) (id : String) (role : String)
    (updates : Option UpdatePayload) (now : Nat) : PutResult × List Emr :=
  match updates with
  | none => (PutResult.storeError, store)
  | some u =>
    if role = "admin" then
      match u.status with
      | none =>
        if store.any (fun e => e.id == id) then (PutResult.storeError, store)
        else (PutResult.okUpdated, store)
      | some s =>
        (PutResult.okUpdated,
         store.map (fun e => if e.id == id then Gated.adminSet u s now e else e))
    else if role = "doctor" then
      (PutResult.okUpdated,
       store.map (fun e => if e.id == id then doctorSet u now e else e))
    else (PutResult.forbidden, store)

/-- The PDF content of lastproindex.js: the logo image (this route only
renders after a successful fetch), then the fixed text sections. -/
def render (e : Emr) (doctorName : Option String) (logo : String)
    (now : String) : List PdfItem :=
  [PdfItem.image logo,
   PdfItem.line "Medical Consultation Report",
   PdfItem.line "Patient Data",
   PdfItem.line ("Name: " ++ orNA e.patient_name),
   PdfItem.line ("Date of Birth: " ++
     (match e.patient_dob with
      | some d => dateDisplay d
      | none => "N/A")),
   PdfItem.line "Symptoms:",
   PdfItem.line (orNA e.symptoms),
   PdfItem.line "Medical History:",
   PdfItem.line (orNA e.medical_history),
   PdfItem.line "Current Medication:",
   PdfItem.line (orNA e.current_medication),
   PdfItem.line "Physician\x27s Report",
   PdfItem.line "Diagnosis:",
   PdfItem.line (orNA e.doctor_diagnosis),
   PdfItem.line "Report & Findings:",
   PdfItem.line (orNA e.doctor_report),
   PdfItem.line "Recommendations:",
   PdfItem.line (orNA e.doctor_recommendations),
   PdfItem.line ("Report generated on: " ++ now),
   PdfItem.line "_________________________",
   PdfItem.line ("Dr. " ++ orDefault doctorName "Physician" ++ " Signature")]

/-- GET /api/emrs/:id/generate-pdf of lastproindex.js: 404, then the
payment gate, then one unguarded logo-fetch attempt whose failure is
caught by the route-level catch as a 500 before any bytes are piped.
The second component counts fetch attempts. -/
def generatePdf (store : List Emr) (profiles : List DoctorProfile) (id : String)
    (fetchResult : Except String String) (now : String) : PdfOutcome × Nat :=
  match findEmr store id with
  | none => (PdfOutcome.notFound "EMR not found.", 0)
  | some e =>
    if e.is_payment_confirmed = some true then
      match fetchResult with
      | Except.error _ => (PdfOutcome.serverError "Server error generating PDF", 1)
      | Except.ok logo =>
        (PdfOutcome.ok ("Report_" ++ e.id ++ ".pdf")
           (render e (joinDoctorName profiles e) logo now), 1)
    else (PdfOutcome.paymentNotConfirmed "Payment not confirmed.", 0)

end LastPro

namespace I18n

/-
  The i18next snapshot: per-request language resolution with layered
  signals (pickRequestLng) and a localized PDF route whose labels come
  from external locale files, modeled as an explicit translation-table
  argument.
-/

/-- The supportedLngs configured for i18next. -/
def supportedLngs : List String := ["de", "en", "fr", "ro"]

/-- JavaScript a || b over an optional request signal: an absent or empty
signal falls through. -/
def orSignal (v : Option String) (d : String) : String :=
  match v with
  | none => d
  | some s => if s = "" then d else s

/-- pickRequestLng: the first truthy signal among body lng, the
x-wetreat-lang header, query lng and the middleware-detected language
(else the fallback) is the candidate; a candidate outside the supported
set resolves to the fallback. -/
def pickRequestLng (body header query detected : Option String)
    (fallback : String) : String :=
  let cand := orSignal body (orSignal header (orSignal query (orSignal detected fallback)))
  if supportedLngs.contains cand then cand else fallback

/-- One rendered medical-document line of the localized PDF route (the
password label is localized). -/
def docLine (tbl : String → String → String) (lng : String) (d : JVal) : String :=
  "- " ++ jsOrNA (getProp d "name") ++ ": " ++ jsOrNA (getProp d "url") ++
  " (" ++ tbl lng "pdf.labels.doc_password" ++ ": " ++ jsOrNA (getProp d "password") ++ ")"

/-- The medical-documents section of the localized PDF route. -/
def medicalDocsLines (tbl : String → String → String) (lng : String)
    (v : Option JVal) : List String :=
  let mdocs := safeArray v
  (tbl lng "pdf.labels.documents" ++ ":") ::
  (if mdocs.length > 0 then mdocs.map (docLine tbl lng) else ["N/A"])

/-- The PDF content of the localized route, in source order, with every
label drawn from the locale table at the resolved language. -/
def render (tbl : String → String → String) (lng : String) (e : Emr)
    (doctorName : Option String) (logo : Option String) (now : String) :
    List PdfItem :=
  (match logo with
   | some l => [PdfItem.image l]
   | none => []) ++
  [PdfItem.line (tbl lng "pdf.header"),
   PdfItem.line (tbl lng "pdf.section.patient"),
   PdfItem.line (tbl lng "pdf.labels.name" ++ ": " ++ orNA e.patient_name),
   PdfItem.line (tbl lng "pdf.labels.dob" ++ ": " ++
     (match e.patient_dob with
      | some d => dateDisplay d
      | none => "N/A")),
   PdfItem.line (tbl lng "pdf.labels.symptoms" ++ ":"),
   PdfItem.line (orNA e.symptoms),
   PdfItem.line (tbl lng "pdf.labels.history" ++ ":"),
   PdfItem.line (orNA e.medical_history),
   PdfItem.line (tbl lng "pdf.labels.medication" ++ ":"),
   PdfItem.line (orNA e.current_medication)] ++
  (medicalDocsLines tbl lng e.medical_documents).map PdfItem.line ++
  [PdfItem.line (tbl lng "pdf.section.report"),
   PdfItem.line (tbl lng "pdf.labels.diagnosis" ++ ":"),
   PdfItem.line (orNA e.doctor_diagnosis),
   PdfItem.line (tbl lng "pdf.labels.findings" ++ ":"),
   PdfItem.line (orNA e.doctor_report),
   PdfItem.line (tbl lng "pdf.labels.recommendations" ++ ":"),
   PdfItem.line (orNA e.doctor_recommendations),
   PdfItem.line (tbl lng "pdf.labels.types" ++ ":"),
   PdfItem.line (Sparse.typesDisplay e.consultation_type),
   PdfItem.line (tbl lng "pdf.labels.generated_on" ++ ": " ++ now),
   PdfItem.line "_________________________",
   PdfItem.line (orDefault doctorName "Physician")]

/-- GET /api/emrs/:id/generate-pdf of the i18next snapshot: the language
comes from pickRequestLng over the request signals, the EMR from the id;
no caller identity is consulted.  tbl is the external locale data; the
second component counts logo-fetch attempts. -/
def generatePdf (tbl : String → String → String) (store : List Emr)
    (profiles : List DoctorProfile) (r : PdfRequest)
    (fetchResult : Except String String) (now : String) : PdfOutcome × Nat :=
  let lng := pickRequestLng r.bodyLng r.headerLang r.queryLng r.detected "en"
  match findEmr store r.emrId with
  | none => (PdfOutcome.notFound (tbl lng "errors.not_found"), 0)
  | some e =>
    let logo : Option String :=
      match fetchResult with
      | Except.ok l => some l
      | Except.error _ => none
    (PdfOutcome.ok ("Report_" ++ e.id ++ "_" ++ lng ++ ".pdf")
       (render tbl lng e (joinDoctorName profiles e) logo now), 1)

end I18n

namespace Multi

/-
  backend/multiindex.js: the PDF route picks its language from the lang
  query parameter alone (a truthy parameter that is a key of the inline
  pdfTranslations object), falling back to English.
-/

/-- The keys of the inline pdfTranslations object. -/
def translationKeys : List String := ["en", "de", "ro", "fr"]

/-- The language decision of the multilingual PDF route: the lang query
parameter when it is truthy and indexes the inline translation object,
else English (an absent or empty parameter is falsy, and the object
lookup is truthy exactly on the translation keys). -/
def resolveLang (queryLang : Option String) : String :=
  match queryLang with
  | none => "en"
  | some l =>
    if l = "" then "en"
    else if translationKeys.contains l then l else "en"

/-- The same decision at the request level: of all the request signals
only the lang query parameter is read. -/
def requestLang (r : PdfRequest) : String :=
  resolveLang r.queryLang

end Multi

/-
  Concrete fixtures used by the witnesses and counterexamples below.
-/

/-- An updates object with no keys at all. -/
def emptyUpdate : UpdatePayload :=
  ⟨none, none, none, none, none, none, none, none, none, none, none, none, none⟩

/-- A representative stored EMR row, as created by a patient submission
and not yet paid for. -/
def baseEmr : Emr :=
  { id := "emr-1"
    patient_email := "pat@example.com"
    patient_password := "pw-secret"
    patient_name := some "Pat Doe"
    patient_dob := some "1990-01-01"
    symptoms := some "cough"
    medical_history := some "unremarkable"
    current_medication := some "ibuprofen"
    medical_documents := none
    patient_notes := none
    assigned_doctor_id := none
    consultation_type := none
    doctor_diagnosis := none
    doctor_report := none
    doctor_recommendations := some "keep these notes"
    doctor_private_notes := none
    admin_notes := none
    is_payment_confirmed := some false
    status := "submitted_by_patient"
    created_at := 10
    updated_at := 10 }

/-- A doctor payload that updates the report and status but omits the
recommendations key. -/
def c2Update : UpdatePayload :=
  { emptyUpdate with doctorReport := some (some "new findings"), status := some "assigned" }

/-- A payload that carries a doctor-owned key only, so the admin branch
of the sparse PUT collects no assignment. -/
def c2AdminNoop : UpdatePayload :=
  { emptyUpdate with doctorReport := some (some "ignored by the admin branch") }

/-- A doctor payload that asks for an explicit non-terminal status. -/
def c3Update : UpdatePayload :=
  { emptyUpdate with doctorReport := some (some "all good"), status := some "in_review" }

/-- A concrete medical-document entry. -/
def c5Doc : JVal :=
  JVal.jobj [("name", JVal.jstr "mri-scan"), ("url", JVal.jstr "http://docs/1"),
             ("password", JVal.jstr "pw1")]

/-- A rendering request that carries an explicit supported body language
and no other language signal. -/
def c6Request : PdfRequest :=
  ⟨"emr-1", some "de", none, none, none, none, none, none, none⟩

/-- A paid-for EMR row, eligible for the gated PDF routes. -/
def paidEmr : Emr := { baseEmr with is_payment_confirmed := some true }

/-- Two stores that differ only in one patient secret. -/
def c8RowA : Emr := { baseEmr with patient_password := "secret-a" }

/-- The same row with the other patient secret. -/
def c8RowB : Emr := { baseEmr with patient_password := "secret-b" }

/-- An admin payload that submits the payment-confirmed flag (and a
status, so the sparse assignment set is non-empty). -/
def c9Update : UpdatePayload :=
  { emptyUpdate with isPaymentConfirmed := some (some true),
                     status := some "payment_confirmed" }

/-- A PDF request carrying one caller identity. -/
def c10ReqA : PdfRequest :=
  ⟨"emr-1", some "fr", none, none, none, none, some "user-1", some "admin",
   some "token-a"⟩

/-- The same PDF request carrying a completely different caller identity
(and no credential at all). -/
def c10ReqB : PdfRequest :=
  ⟨"emr-1", some "fr", none, none, none, none, some "user-2", some "doctor", none⟩

/-
  Supporting lemmas about the embedded store operations.
-/

/-- A row whose id differs from the updated id is kept, as stored, by the
conditional UPDATE. -/
theorem mem_map_update_of_ne (store : List Emr) (id : String) (g : Emr → Emr)
    (e : Emr) (he : e ∈ store) (hne : e.id ≠ id) :
    e ∈ store.map (fun x => if x.id == id then g x else x) := by
  have hfix : (fun x => if x.id == id then g x else x) e = e := by
    simp [hne]
  have h2 := List.mem_map_of_mem (fun x => if x.id == id then g x else x) he
  rwa [hfix] at h2

/-- When no stored row carries the updated id, the conditional UPDATE
leaves the store exactly as it was. -/
theorem map_update_of_none (store : List Emr) (id : String) (g : Emr → Emr)
    (h : ∀ e ∈ store, e.id ≠ id) :
    store.map (fun x => if x.id == id then g x else x) = store := by
  have hcg : store.map (fun x => if x.id == id then g x else x) =
      store.map (fun x => x) :=
    List.map_congr_left (fun e he => by simp [h e he])
  simpa using hcg

/-- find? returning none means no row satisfies the id predicate. -/
theorem findEmr_none_iff (store : List Emr) (id : String) :
    findEmr store id = none ↔ ∀ e ∈ store, e.id ≠ id := by
  unfold findEmr
  rw [List.find?_eq_none]
  constructor
  · intro h e he
    have := h e he
    simpa using this
  · intro h e he
    simp [h e he]

/-- Scrubbing the patient secret does not change the projection used by
the hardened GET /api/emrs response. -/
theorem toView_scrub (e : Emr) : toView (scrub e) = toView e := rfl

/-- Scrubbing does not change assignment filtering. -/
theorem assignedTo_scrub (uid : Option String) (e : Emr) :
    assignedTo uid (scrub e) = assignedTo uid e := rfl

/-- Insertion by created_at commutes with scrubbing. -/
theorem insertDesc_map_scrub (e : Emr) (l : List Emr) :
    insertDesc (scrub e) (l.map scrub) = (insertDesc e l).map scrub := by
  induction l with
  | nil => rfl
  | cons x xs ih =>
    simp only [List.map_cons, insertDesc]
    have hc : (scrub x).created_at = x.created_at := rfl
    have hc2 : (scrub e).created_at = e.created_at := rfl
    rw [hc, hc2]
    by_cases h : x.created_at < e.created_at
    · rw [if_pos h, if_pos h, List.map_cons, List.map_cons]
    · rw [if_neg h, if_neg h, List.map_cons, ih]

/-- Sorting by created_at commutes with scrubbing. -/
theorem sortDesc_map_scrub (l : List Emr) :
    sortDesc (l.map scrub) = (sortDesc l).map scrub := by
  induction l with
  | nil => rfl
  | cons x xs ih =>
    simp only [List.map_cons, sortDesc, ih]
    exact insertDesc_map_scrub x (sortDesc xs)

/-- Assignment filtering commutes with scrubbing. -/
theorem filter_map_scrub (uid : Option String) (l : List Emr) :
    (l.map scrub).filter (assignedTo uid) = (l.filter (assignedTo uid)).map scrub := by
  induction l with
  | nil => rfl
  | cons x xs ih =>
    simp only [List.map_cons, List.filter_cons, assignedTo_scrub]
    by_cases h : assignedTo uid x
    · simp [h, ih]
    · simp [h, ih]

/-- The hardened GET /api/emrs cannot observe patient_password: its
response on a scrubbed store is its response on the store itself. -/
theorem getEmrs_scrub (store : List Emr) (uid role : Option String) :
    Sparse.getEmrs (store.map scrub) uid role = Sparse.getEmrs store uid role := by
  unfold Sparse.getEmrs
  have hts : toView ∘ scrub = toView := funext fun e => rfl
  by_cases h1 : role = some "admin"
  · simp [h1, sortDesc_map_scrub, List.map_map, hts]
  · by_cases h2 : role = some "doctor"
    · simp [h1, h2, filter_map_scrub, sortDesc_map_scrub, List.map_map, hts]
    · simp [h1, h2]

/-- C1: in the payment-gated variant, a GET /api/emrs/:id/generate-pdf
request for an EMR whose is_payment_confirmed is false is refused with
the 403 payment-not-confirmed outcome before any rendering and streams no
content; the same request once the flag is true returns 200 with the
complete document. -/
theorem claim_C1_payment_gate (store store2 : List Emr)
    (profiles : List DoctorProfile) (id : String) (e : Emr)
    (h1 : findEmr store id = some e)
    (h2 : e.is_payment_confirmed = some false)
    (h3 : findEmr store2 id = some { e with is_payment_confirmed := some true }) :
    Gated.generatePdf store profiles id =
      PdfOutcome.paymentNotConfirmed "Payment not confirmed." ∧
    statusOf (Gated.generatePdf store profiles id) = 403 ∧
    itemsOf (Gated.generatePdf store profiles id) = [] ∧
    Gated.generatePdf store2 profiles id =
      PdfOutcome.ok ("Report_" ++ e.id ++ ".pdf")
        (Gated.render { e with is_payment_confirmed := some true }
          (joinDoctorName profiles { e with is_payment_confirmed := some true })) ∧
    statusOf (Gated.generatePdf store2 profiles id) = 200 := by
  refine ⟨?_, ?_, ?_, ?_, ?_⟩ <;>
    simp [Gated.generatePdf, h1, h2, h3, statusOf, itemsOf]

/-- Witness for C1 at a concrete store: refusal while unpaid, a 200
document once the flag is confirmed. -/
theorem claim_C1_payment_gate_witness :
    Gated.generatePdf [baseEmr] [] "emr-1" =
      PdfOutcome.paymentNotConfirmed "Payment not confirmed." ∧
    statusOf (Gated.generatePdf
      [{ baseEmr with is_payment_confirmed := some true }] [] "emr-1") = 200 := by
  have h := claim_C1_payment_gate [baseEmr]
    [{ baseEmr with is_payment_confirmed := some true }] [] "emr-1" baseEmr rfl rfl rfl
  exact ⟨h.1, h.2.2.2.2⟩

/-- Counterexample to C2 as stated: in the full-overwrite snapshot a
doctor update that omits doctorRecommendations still rewrites the stored
doctor_recommendations to null, so a field absent from u does not keep
its previous value. -/
theorem claim_C2_counterexample :
    (Gated.putEmr [baseEmr] "emr-1" "doctor" (some c2Update) 77).1 =
      PutResult.okUpdated ∧
    ((Gated.putEmr [baseEmr] "emr-1" "doctor" (some c2Update) 77).2.head?.map
      (fun e => e.doctor_recommendations)) = some none ∧
    baseEmr.doctor_recommendations = some "keep these notes" ∧
    c2Update.doctorRecommendations = none :=
  ⟨rfl, rfl, rfl, rfl⟩

/-- C2 (amended to the sparse-update snapshot): a partial update changes
only the role-owned keys present in the payload, leaves every other
column of the target row as stored, never touches other rows, and an
update with no owned key short-circuits as a 200 no-op that leaves the
store (updated_at included) untouched. -/
theorem claim_C2_sparse_partial_update (store : List Emr) (id : String)
    (u : UpdatePayload) (now : Nat) :
    (Sparse.adminClauses u = false →
      Sparse.putEmr store id "admin" (some u) now = (PutResult.okNoUpdates, store)) ∧
    (Sparse.doctorClauses u = false →
      Sparse.putEmr store id "doctor" (some u) now = (PutResult.okNoUpdates, store)) ∧
    (∀ (role : String) (e : Emr), e ∈ store → e.id ≠ id →
      e ∈ (Sparse.putEmr store id role (some u) now).2) ∧
    (∀ e : Emr,
      (u.assignedDoctorId = none →
        (Sparse.applyAdmin u now e).assigned_doctor_id = e.assigned_doctor_id) ∧
      (∀ v, u.assignedDoctorId = some v →
        (Sparse.applyAdmin u now e).assigned_doctor_id = v) ∧
      (u.status = none → (Sparse.applyAdmin u now e).status = e.status) ∧
      (∀ s, u.status = some s → (Sparse.applyAdmin u now e).status = s) ∧
      (Sparse.applyAdmin u now e).is_payment_confirmed = e.is_payment_confirmed ∧
      (Sparse.applyAdmin u now e).admin_notes = e.admin_notes ∧
      (Sparse.applyAdmin u now e).doctor_diagnosis = e.doctor_diagnosis ∧
      (Sparse.applyAdmin u now e).doctor_report = e.doctor_report ∧
      (Sparse.applyAdmin u now e).doctor_recommendations = e.doctor_recommendations ∧
      (Sparse.applyAdmin u now e).doctor_private_notes = e.doctor_private_notes ∧
      (Sparse.applyAdmin u now e).consultation_type = e.consultation_type ∧
      (Sparse.applyAdmin u now e).medical_documents = e.medical_documents ∧
      (Sparse.applyAdmin u now e).symptoms = e.symptoms ∧
      (Sparse.applyAdmin u now e).patient_password = e.patient_password ∧
      (Sparse.applyAdmin u now e).created_at = e.created_at ∧
      (Sparse.applyAdmin u now e).updated_at = now) ∧
    (∀ e : Emr,
      (u.doctorDiagnosis = none →
        (Sparse.applyDoctor u now e).doctor_diagnosis = e.doctor_diagnosis) ∧
      (∀ v, u.doctorDiagnosis = some v →
        (Sparse.applyDoctor u now e).doctor_diagnosis = v) ∧
      (u.doctorReport = none →
        (Sparse.applyDoctor u now e).doctor_report = e.doctor_report) ∧
      (∀ v, u.doctorReport = some v →
        (Sparse.applyDoctor u now e).doctor_report = v) ∧
      (u.doctorRecommendations = none →
        (Sparse.applyDoctor u now e).doctor_recommendations = e.doctor_recommendations) ∧
      (u.doctorPrivateNotes = none →
        (Sparse.applyDoctor u now e).doctor_private_notes = e.doctor_private_notes) ∧
      (u.consultationType = none →
        (Sparse.applyDoctor u now e).consultation_type = e.consultation_type) ∧
      (u.status = none → (Sparse.applyDoctor u now e).status = e.status) ∧
      (Sparse.applyDoctor u now e).assigned_doctor_id = e.assigned_doctor_id ∧
      (Sparse.applyDoctor u now e).is_payment_confirmed = e.is_payment_confirmed ∧
      (Sparse.applyDoctor u now e).symptoms = e.symptoms ∧
      (Sparse.applyDoctor u now e).medical_history = e.medical_history ∧
      (Sparse.applyDoctor u now e).medical_documents = e.medical_documents ∧
      (Sparse.applyDoctor u now e).patient_password = e.patient_password ∧
      (Sparse.applyDoctor u now e).created_at = e.created_at ∧
      (Sparse.applyDoctor u now e).updated_at = now) := by
  refine ⟨?_, ?_, ?_, ?_, ?_⟩
  · intro h
    simp [Sparse.putEmr, h]
  · intro h
    simp [Sparse.putEmr, h]
  · intro role e he hne
    by_cases hr : role = "admin"
    · subst hr
      cases hc : Sparse.adminClauses u
      · simpa [Sparse.putEmr, hc] using he
      · simpa [Sparse.putEmr, hc] using mem_map_update_of_ne store id _ e he hne
    · by_cases hd : role = "doctor"
      · subst hd
        cases hc : Sparse.doctorClauses u
        · simpa [Sparse.putEmr, hc] using he
        · simpa [Sparse.putEmr, hc] using mem_map_update_of_ne store id _ e he hne
      · simpa [Sparse.putEmr, hr, hd] using he
  · intro e
    refine ⟨?_, ?_, ?_, ?_, ?_, ?_, ?_, ?_, ?_, ?_, ?_, ?_, ?_, ?_, ?_, ?_⟩ <;>
      first
      | rfl
      | (intro h
         simp [Sparse.applyAdmin, h])
      | (intro v h
         simp [Sparse.applyAdmin, h])
  · intro e
    refine ⟨?_, ?_, ?_, ?_, ?_, ?_, ?_, ?_, ?_, ?_, ?_, ?_, ?_, ?_, ?_, ?_⟩ <;>
      first
      | rfl
      | (intro h
         simp [Sparse.applyDoctor, h])
      | (intro v h
         simp [Sparse.applyDoctor, h])

/-- Witness for C2 at concrete inputs: a payload with no admin-owned key
is a no-op for the admin branch, and the sparse doctor assignment leaves
the omitted recommendations column as stored. -/
theorem claim_C2_witness :
    Sparse.adminClauses c2AdminNoop = false ∧
    Sparse.putEmr [baseEmr] "emr-1" "admin" (some c2AdminNoop) 5 =
      (PutResult.okNoUpdates, [baseEmr]) ∧
    (Sparse.applyDoctor c2Update 5 baseEmr).doctor_recommendations =
      baseEmr.doctor_recommendations := by
  refine ⟨rfl, ?_, ?_⟩
  · exact (claim_C2_sparse_partial_update [baseEmr] "emr-1" c2AdminNoop 5).1 rfl
  · exact ((claim_C2_sparse_partial_update [baseEmr] "emr-1" c2Update 5).2.2.2.2
      baseEmr).2.2.2.2.1 rfl

/-- Counterexample to C3 as stated: in the sparse snapshot a doctor
update stores the submitted status verbatim, not the fixed terminal
value. -/
theorem claim_C3_counterexample :
    ((Sparse.putEmr [baseEmr] "emr-1" "doctor" (some c3Update) 9).2.head?.map
      (fun e => e.status)) = some "in_review" ∧
    c3Update.status = some "in_review" ∧
    "in_review" ≠ "report_complete" :=
  ⟨rfl, rfl, by decide⟩

/-- C3 (amended to the lastproindex snapshot): every doctor update run by
the lastproindex PUT leaves the target row with status report_complete,
regardless of the submitted payload. -/
theorem claim_C3_lastpro_forces_status (store : List Emr) (id : String)
    (u : UpdatePayload) (now : Nat) :
    ∀ e2 ∈ (LastPro.putEmr store id "doctor" (some u) now).2,
      e2.id = id → e2.status = "report_complete" := by
  intro e2 hmem hid
  have hstore : (LastPro.putEmr store id "doctor" (some u) now).2 =
      store.map (fun e => if e.id == id then LastPro.doctorSet u now e else e) := by
    simp [LastPro.putEmr]
  rw [hstore] at hmem
  rcases List.mem_map.mp hmem with ⟨x, hx, hfx⟩
  by_cases h : x.id == id
  · rw [← hfx]
    simp [h, LastPro.doctorSet]
  · exfalso
    rw [← hfx] at hid
    simp [h] at hid
    exact (by simpa using h : ¬ x.id = id) hid

/-- Witness for C3 at a concrete store: the submitted in_review status is
overridden to report_complete by the lastproindex doctor branch. -/
theorem claim_C3_witness :
    ((LastPro.putEmr [baseEmr] "emr-1" "doctor" (some c3Update) 9).2.head?.map
      (fun e => e.status)) = some "report_complete" := by
  exact congrArg (fun s => some s)
    (claim_C3_lastpro_forces_status [baseEmr] "emr-1" c3Update 9
      (LastPro.doctorSet c3Update 9 baseEmr)
      (by simp [LastPro.putEmr, baseEmr]) rfl)

/-- Counterexample to C4 as stated: a sparse PUT with a valid role and a
non-empty owned assignment set, addressed to an id no stored row carries,
answers 200 EMR-updated — a silent success, not a 404. -/
theorem claim_C4_counterexample :
    Sparse.putEmr [baseEmr] "no-such-emr" "admin" (some c3Update) 4 =
      (PutResult.okUpdated, [baseEmr]) ∧
    statusOfPut PutResult.okUpdated = 200 ∧
    statusOfPut PutResult.okUpdated ≠ 404 :=
  ⟨rfl, rfl, by decide⟩

/-- Variant of the untouched-store lemma stated with propositional id
comparison, the form simp normalises the handler to. -/
theorem map_update_of_none_eq (store : List Emr) (id : String) (g : Emr → Emr)
    (h : ∀ e ∈ store, e.id ≠ id) :
    store.map (fun x => if x.id = id then g x else x) = store := by
  have hcg : store.map (fun x => if x.id = id then g x else x) =
      store.map (fun x => x) :=
    List.map_congr_left (fun e he => by simp [h e he])
  simpa using hcg

/-- C4 (amended): a PUT with a valid role addressed to a nonexistent EMR
id always answers 200 and leaves the store unchanged; the zero-rows
condition is never surfaced as a NotFoundError. -/
theorem claim_C4_missing_id_silent_success (store : List Emr) (id role : String)
    (u : UpdatePayload) (now : Nat)
    (hrole : role = "admin" ∨ role = "doctor")
    (hmiss : findEmr store id = none) :
    statusOfPut (Sparse.putEmr store id role (some u) now).1 = 200 ∧
    (Sparse.putEmr store id role (some u) now).2 = store := by
  have hne := (findEmr_none_iff store id).mp hmiss
  rcases hrole with h | h <;> subst h
  · cases hc : Sparse.adminClauses u
    · simp [Sparse.putEmr, hc, statusOfPut]
    · simp [Sparse.putEmr, hc, statusOfPut, map_update_of_none_eq store id _ hne]
  · cases hc : Sparse.doctorClauses u
    · simp [Sparse.putEmr, hc, statusOfPut]
    · simp [Sparse.putEmr, hc, statusOfPut, map_update_of_none_eq store id _ hne]

/-- Witness for C4 at a concrete store and missing id. -/
theorem claim_C4_witness :
    statusOfPut (Sparse.putEmr [baseEmr] "no-such-emr" "admin" (some c3Update) 4).1 = 200 ∧
    (Sparse.putEmr [baseEmr] "no-such-emr" "admin" (some c3Update) 4).2 = [baseEmr] :=
  claim_C4_missing_id_silent_success [baseEmr] "no-such-emr" "admin" c3Update 4
    (Or.inl rfl) rfl

/-- C5: an EMR whose medical_documents JSONB holds a list of N entries
(natively or as a serialized-list string) renders one document line per
entry under the section header, each line built from the entry fields in
the fixed format; an absent, null, or non-list-decodable value renders
the literal N/A instead. -/
theorem claim_C5_document_roundtrip (v : Option JVal) :
    (∀ entries : List JVal,
      (v = some (JVal.jarr entries) ∨
        (∃ s, v = some (JVal.jstr s) ∧ jsonParse s = some (JVal.jarr entries))) →
      entries ≠ [] →
      Sparse.medicalDocsLines v = "Medical Documents:" :: entries.map Sparse.docLine ∧
      (entries.map Sparse.docLine).length = entries.length) ∧
    ((v = none ∨ v = some JVal.jnull ∨
        (∃ s, v = some (JVal.jstr s) ∧ ∀ l, jsonParse s ≠ some (JVal.jarr l))) →
      Sparse.medicalDocsLines v = ["Medical Documents:", "N/A"]) ∧
    (∀ nm url pw : String, nm ≠ "" → url ≠ "" → pw ≠ "" →
      Sparse.docLine (JVal.jobj
          [("name", JVal.jstr nm), ("url", JVal.jstr url), ("password", JVal.jstr pw)]) =
        "- " ++ nm ++ ": " ++ url ++ " (Password: " ++ pw ++ ")") := by
  refine ⟨?_, ?_, ?_⟩
  · intro entries hsrc hne
    have hlen : 0 < entries.length := List.length_pos.mpr hne
    rcases hsrc with h | ⟨s, hv, hp⟩
    · subst h
      constructor
      · simp [Sparse.medicalDocsLines, safeArray, truthy, hlen]
      · simp
    · subst hv
      have hs : s ≠ "" := by
        intro h0
        subst h0
        rw [show jsonParse "" = none from rfl] at hp
        exact Option.noConfusion hp
      constructor
      · simp [Sparse.medicalDocsLines, safeArray, truthy, hs, hp, hlen]
      · simp
  · rintro (h | h | ⟨s, hv, hp⟩)
    · subst h
      rfl
    · subst h
      rfl
    · subst hv
      by_cases hs : s = ""
      · subst hs
        rfl
      · have hif : truthy (JVal.jstr s) = true := by simp [truthy, hs]
        have hempty : safeArray (some (JVal.jstr s)) = [] := by
          cases hjp : jsonParse s with
          | none => simp [safeArray, hif, hjp]
          | some w =>
            cases w with
            | jarr l => exact absurd hjp (hp l)
            | jnull => simp [safeArray, hif, hjp]
            | jbool b => simp [safeArray, hif, hjp]
            | jnum lex => simp [safeArray, hif, hjp]
            | jstr s2 => simp [safeArray, hif, hjp]
            | jobj fs => simp [safeArray, hif, hjp]
        simp [Sparse.medicalDocsLines, hempty]
  · intro nm url pw h1 h2 h3
    simp [Sparse.docLine, jsOrNA, getProp, lookupLastKey, truthy, jsDisplay, h1, h2, h3]

/-- Witness for C5 at concrete values: a one-entry list renders one
formatted line; a non-JSON string and an absent value render N/A. -/
theorem claim_C5_witness :
    Sparse.medicalDocsLines (some (JVal.jarr [c5Doc])) =
      ["Medical Documents:", "- mri-scan: http://docs/1 (Password: pw1)"] ∧
    Sparse.medicalDocsLines (some (JVal.jstr "not-json")) =
      ["Medical Documents:", "N/A"] ∧
    Sparse.medicalDocsLines none = ["Medical Documents:", "N/A"] := by
  have h1 := (claim_C5_document_roundtrip (some (JVal.jarr [c5Doc]))).1 [c5Doc]
    (Or.inl rfl) (List.cons_ne_nil _ _)
  have h2 := (claim_C5_document_roundtrip (some (JVal.jstr "not-json"))).2.1
    (Or.inr (Or.inr ⟨"not-json", rfl, by
      intro l hl
      rw [show jsonParse "not-json" = none from rfl] at hl
      exact Option.noConfusion hl⟩))
  have h3 := (claim_C5_document_roundtrip none).2.1 (Or.inl rfl)
  refine ⟨?_, h2, h3⟩
  rw [h1.1]
  rfl

/-- Counterexample to C6 as stated: the multilingual snapshot resolves
the report language from the lang query parameter alone, so a request
whose body names the supported language de still renders in English
there, against the body-first precedence. -/
theorem claim_C6_counterexample :
    c6Request.bodyLng = some "de" ∧
    "de" ∈ I18n.supportedLngs ∧
    Multi.requestLang c6Request = "en" ∧
    I18n.pickRequestLng c6Request.bodyLng c6Request.headerLang c6Request.queryLng
      c6Request.detected "en" = "de" :=
  ⟨rfl, by decide, rfl, rfl⟩

/-- C6 (amended): in the i18next snapshot pickRequestLng resolves exactly
one language by the precedence body, header, query, detected default,
then the constant English fallback, always lands in the supported set,
and maps any unsupported candidate to the fallback; the multilingual
snapshot instead reads only the lang query parameter (supported value or
English), ignoring every other signal.  Both resolvers are total pure
functions of the request signals. -/
theorem claim_C6_language_resolution (body header query detected : Option String) :
    (I18n.pickRequestLng body header query detected "en" ∈ I18n.supportedLngs) ∧
    (∀ s, body = some s → s ≠ "" → s ∈ I18n.supportedLngs →
      I18n.pickRequestLng body header query detected "en" = s) ∧
    (∀ s, (body = none ∨ body = some "") → header = some s → s ≠ "" →
      s ∈ I18n.supportedLngs →
      I18n.pickRequestLng body header query detected "en" = s) ∧
    (∀ s, (body = none ∨ body = some "") → (header = none ∨ header = some "") →
      query = some s → s ≠ "" → s ∈ I18n.supportedLngs →
      I18n.pickRequestLng body header query detected "en" = s) ∧
    (∀ s, (body = none ∨ body = some "") → (header = none ∨ header = some "") →
      (query = none ∨ query = some "") → detected = some s → s ≠ "" →
      s ∈ I18n.supportedLngs →
      I18n.pickRequestLng body header query detected "en" = s) ∧
    ((body = none ∨ body = some "") → (header = none ∨ header = some "") →
      (query = none ∨ query = some "") → (detected = none ∨ detected = some "") →
      I18n.pickRequestLng body header query detected "en" = "en") ∧
    (∀ cand, I18n.orSignal body (I18n.orSignal header
        (I18n.orSignal query (I18n.orSignal detected "en"))) = cand →
      cand ∉ I18n.supportedLngs →
      I18n.pickRequestLng body header query detected "en" = "en") ∧
    (∀ r r2 : PdfRequest, r.queryLang = r2.queryLang →
      Multi.requestLang r = Multi.requestLang r2) ∧
    (∀ q : String, q ≠ "" → q ∈ Multi.translationKeys →
      Multi.resolveLang (some q) = q) ∧
    (∀ q : String, q ∉ Multi.translationKeys → Multi.resolveLang (some q) = "en") ∧
    Multi.resolveLang none = "en" := by
  refine ⟨?_, ?_, ?_, ?_, ?_, ?_, ?_, ?_, ?_, ?_, rfl⟩
  · by_cases h : I18n.orSignal body (I18n.orSignal header
      (I18n.orSignal query (I18n.orSignal detected "en"))) ∈ I18n.supportedLngs
    · simp [I18n.pickRequestLng, h]
    · simp [I18n.pickRequestLng, h]
      decide
  · intro s hb hne hsup
    simp [I18n.pickRequestLng, I18n.orSignal, hb, hne, hsup]
  · intro s hb hh hne hsup
    rcases hb with hb | hb <;>
      simp [I18n.pickRequestLng, I18n.orSignal, hb, hh, hne, hsup]
  · intro s hb hh hq hne hsup
    rcases hb with hb | hb <;> rcases hh with hh | hh <;>
      simp [I18n.pickRequestLng, I18n.orSignal, hb, hh, hq, hne, hsup]
  · intro s hb hh hq hd hne hsup
    rcases hb with hb | hb <;> rcases hh with hh | hh <;> rcases hq with hq | hq <;>
      simp [I18n.pickRequestLng, I18n.orSignal, hb, hh, hq, hd, hne, hsup]
  · intro hb hh hq hd
    rcases hb with hb | hb <;> rcases hh with hh | hh <;> rcases hq with hq | hq <;>
      rcases hd with hd | hd <;>
      simp [I18n.pickRequestLng, I18n.orSignal, hb, hh, hq, hd]
  · intro cand hc hns
    simp [I18n.pickRequestLng, hc, hns]
  · intro r r2 h
    simp [Multi.requestLang, h]
  · intro q hne hk
    simp [Multi.resolveLang, hne, hk]
  · intro q hk
    by_cases hq : q = ""
    · simp [Multi.resolveLang, hq]
    · simp [Multi.resolveLang, hq, hk]

/-- Witness for C6 at concrete signals: body wins when supported, an
unsupported candidate falls back to English, and the multilingual route
accepts a supported query value. -/
theorem claim_C6_witness :
    I18n.pickRequestLng (some "fr") none (some "de") none "en" = "fr" ∧
    I18n.pickRequestLng (some "xx") none none none "en" = "en" ∧
    Multi.resolveLang (some "ro") = "ro" := by
  refine ⟨?_, ?_, ?_⟩
  · exact (claim_C6_language_resolution (some "fr") none (some "de") none).2.1
      "fr" rfl (by decide) (by decide)
  · exact (claim_C6_language_resolution (some "xx") none none none).2.2.2.2.2.2.1
      "xx" rfl (by decide)
  · exact (claim_C6_language_resolution none none none
      none).2.2.2.2.2.2.2.2.1 "ro" (by decide) (by decide)

/-- Counterexample to C7 as stated: in the lastproindex snapshot the logo
fetch is awaited unguarded, so a fetch failure on a payment-confirmed EMR
aborts the request with a 500 and streams nothing, instead of a 200 with
the text content. -/
theorem claim_C7_counterexample :
    LastPro.generatePdf [paidEmr] [] "emr-1" (Except.error "network failure") "t0" =
      (PdfOutcome.serverError "Server error generating PDF", 1) ∧
    statusOf (PdfOutcome.serverError "Server error generating PDF") = 500 ∧
    itemsOf (PdfOutcome.serverError "Server error generating PDF") = [] :=
  ⟨rfl, rfl, rfl⟩

/-- C7 (amended): in the guarded snapshots a logo-fetch failure never
aborts rendering — the response is still a 200 whose text lines equal
those of a successful-fetch run, with the image simply omitted, and the
fetch is attempted exactly once with no retry; in the lastproindex
snapshot the unguarded fetch aborts a payment-confirmed request with a
500 on failure. -/
theorem claim_C7_logo_fetch_nonfatal (store : List Emr)
    (profiles : List DoctorProfile) (id : String) (e : Emr)
    (err logo : String) (now : String)
    (h : findEmr store id = some e) :
    statusOf (Sparse.generatePdf store profiles id (Except.error err) now).1 = 200 ∧
    (Sparse.generatePdf store profiles id (Except.error err) now).2 = 1 ∧
    (Sparse.generatePdf store profiles id (Except.ok logo) now).2 = 1 ∧
    textOf (Sparse.generatePdf store profiles id (Except.error err) now).1 =
      textOf (Sparse.generatePdf store profiles id (Except.ok logo) now).1 ∧
    imagesOf (Sparse.generatePdf store profiles id (Except.error err) now).1 = [] ∧
    (e.is_payment_confirmed = some true →
      LastPro.generatePdf store profiles id (Except.error err) now =
        (PdfOutcome.serverError "Server error generating PDF", 1)) := by
  refine ⟨?_, ?_, ?_, ?_, ?_, ?_⟩
  · simp [Sparse.generatePdf, h, statusOf]
  · simp [Sparse.generatePdf, h]
  · simp [Sparse.generatePdf, h]
  · simp [Sparse.generatePdf, h, textOf, itemsOf, Sparse.render]
  · simp [Sparse.generatePdf, h, imagesOf, itemsOf, Sparse.render]
  · intro hp
    simp [LastPro.generatePdf, h, hp]

/-- Witness for C7 at a concrete store: the hardened route answers 200
with identical text on fetch failure, while lastproindex aborts. -/
theorem claim_C7_witness :
    statusOf (Sparse.generatePdf [paidEmr] [] "emr-1"
      (Except.error "network failure") "t0").1 = 200 ∧
    textOf (Sparse.generatePdf [paidEmr] [] "emr-1"
        (Except.error "network failure") "t0").1 =
      textOf (Sparse.generatePdf [paidEmr] [] "emr-1"
        (Except.ok "logo-bytes") "t0").1 ∧
    LastPro.generatePdf [paidEmr] [] "emr-1" (Except.error "network failure") "t0" =
      (PdfOutcome.serverError "Server error generating PDF", 1) := by
  have hw := claim_C7_logo_fetch_nonfatal [paidEmr] [] "emr-1" paidEmr
    "network failure" "logo-bytes" "t0" rfl
  exact ⟨hw.1, hw.2.2.2.1, hw.2.2.2.2.2 rfl⟩

/-- Counterexample to C8 as stated: the first snapshot of GET /api/emrs
returns rows with patient_password intact, so two stores differing only
in a patient secret yield different responses there. -/
theorem claim_C8_counterexample :
    scrub c8RowA = scrub c8RowB ∧
    Gated.exposedPasswords (Gated.getEmrs [c8RowA] (some "u1") (some "admin")) =
      ["secret-a"] ∧
    Gated.exposedPasswords (Gated.getEmrs [c8RowB] (some "u1") (some "admin")) =
      ["secret-b"] ∧
    Gated.getEmrs [c8RowA] (some "u1") (some "admin") ≠
      Gated.getEmrs [c8RowB] (some "u1") (some "admin") := by
  refine ⟨rfl, rfl, rfl, ?_⟩
  intro hEq
  exact absurd (congrArg Gated.exposedPasswords hEq) (by decide)

/-- C8 (amended): in the hardened snapshot every GET /api/emrs response
row is the stored row with the patient-secret column stripped, and two
stores with the same scrub image (differing at most in patient_password
values) yield identical responses for every caller; the first snapshot
instead returns the stored rows in full. -/
theorem claim_C8_password_stripping (s1 s2 : List Emr) (uid role : Option String)
    (h : s1.map scrub = s2.map scrub) :
    (∀ e : Emr, toView (scrub e) = toView e) ∧
    Sparse.getEmrs s1 uid role = Sparse.getEmrs s2 uid role ∧
    (∀ (store : List Emr) (u2 : Option String),
      Gated.getEmrs store u2 (some "admin") = Gated.EmrsResult.rowsFull (sortDesc store)) := by
  refine ⟨fun e => rfl, ?_, fun store u2 => by simp [Gated.getEmrs]⟩
  rw [← getEmrs_scrub s1, h, getEmrs_scrub]

/-- Witness for C8 at concrete stores that differ only in the patient
secret: the hardened responses coincide. -/
theorem claim_C8_witness :
    Sparse.getEmrs [c8RowA] (some "doc-1") (some "admin") =
      Sparse.getEmrs [c8RowB] (some "doc-1") (some "admin") :=
  (claim_C8_password_stripping [c8RowA] [c8RowB] (some "doc-1") (some "admin") rfl).2.1

/-- Counterexample to C9 as stated: the sparse admin branch owns only
assignedDoctorId and status, so a submitted isPaymentConfirmed is
silently dropped and the stored flag keeps its previous value. -/
theorem claim_C9_counterexample :
    c9Update.isPaymentConfirmed = some (some true) ∧
    ((Sparse.putEmr [baseEmr] "emr-1" "admin" (some c9Update) 12).2.head?.map
      (fun e => e.is_payment_confirmed)) = some (some false) ∧
    baseEmr.is_payment_confirmed = some false ∧
    (some false : Option Bool) ≠ some true :=
  ⟨rfl, rfl, rfl, by decide⟩

/-- C9 (amended): the full-overwrite admin branch stores the submitted
payment-confirmed value, while the sparse admin branch never changes the
stored flag, whatever the payload carries. -/
theorem claim_C9_payment_flag_ownership (u : UpdatePayload) (now : Nat) (e : Emr) :
    (∀ v s, u.isPaymentConfirmed = some v → u.status = some s →
      (Gated.adminSet u s now e).is_payment_confirmed = v) ∧
    (Sparse.applyAdmin u now e).is_payment_confirmed = e.is_payment_confirmed ∧
    (∀ (store : List Emr) (id : String),
      ∀ e2 ∈ (Sparse.putEmr store id "admin" (some u) now).2,
        ∃ e0 ∈ store, e2.is_payment_confirmed = e0.is_payment_confirmed) := by
  refine ⟨?_, rfl, ?_⟩
  · intro v s hv _
    simp [Gated.adminSet, hv]
  · intro store id e2 hmem
    cases hc : Sparse.adminClauses u
    · rw [show (Sparse.putEmr store id "admin" (some u) now).2 = store by
        simp [Sparse.putEmr, hc]] at hmem
      exact ⟨e2, hmem, rfl⟩
    · rw [show (Sparse.putEmr store id "admin" (some u) now).2 =
          store.map (fun x => if x.id == id then Sparse.applyAdmin u now x else x) by
        simp [Sparse.putEmr, hc]] at hmem
      rcases List.mem_map.mp hmem with ⟨x, hx, hfx⟩
      refine ⟨x, hx, ?_⟩
      by_cases hid : x.id == id
      · rw [← hfx]
        simp [hid, Sparse.applyAdmin]
      · rw [← hfx]
        simp [hid]

/-- Witness for C9 at concrete inputs: the full-overwrite branch stores
the submitted true flag, the sparse branch keeps the stored false. -/
theorem claim_C9_witness :
    (Gated.adminSet c9Update "payment_confirmed" 12 baseEmr).is_payment_confirmed =
      some true ∧
    (Sparse.applyAdmin c9Update 12 baseEmr).is_payment_confirmed =
      baseEmr.is_payment_confirmed :=
  ⟨(claim_C9_payment_flag_ownership c9Update 12 baseEmr).1 (some true)
      "payment_confirmed" rfl rfl,
   (claim_C9_payment_flag_ownership c9Update 12 baseEmr).2.1⟩

/-- C10: the generate-pdf routes perform no authentication or role check:
two requests naming the same EMR id and the same language signals receive
identical outcomes from the i18next route and from the hardened route,
whatever caller identity or credential they carry, for every store,
profile table, locale data, fetch outcome and clock. -/
theorem claim_C10_no_identity_in_pdf (tbl : String → String → String)
    (store : List Emr) (profiles : List DoctorProfile) (r r2 : PdfRequest)
    (fetchResult : Except String String) (now : String)
    (h1 : r.emrId = r2.emrId) (h2 : r.bodyLng = r2.bodyLng)
    (h3 : r.headerLang = r2.headerLang) (h4 : r.queryLng = r2.queryLng)
    (_h5 : r.queryLang = r2.queryLang) (h6 : r.detected = r2.detected) :
    I18n.generatePdf tbl store profiles r fetchResult now =
      I18n.generatePdf tbl store profiles r2 fetchResult now ∧
    Sparse.generatePdfReq store profiles r fetchResult now =
      Sparse.generatePdfReq store profiles r2 fetchResult now := by
  constructor
  · simp only [I18n.generatePdf]
    rw [h1, h2, h3, h4, h6]
  · simp only [Sparse.generatePdfReq]
    rw [h1]

/-- Witness for C10 at two concrete requests that differ in user id,
role and credential but agree on the EMR id and language signals. -/
theorem claim_C10_witness :
    I18n.generatePdf (fun _ k => k) [baseEmr] [] c10ReqA (Except.ok "logo-bytes") "t0" =
      I18n.generatePdf (fun _ k => k) [baseEmr] [] c10ReqB (Except.ok "logo-bytes") "t0" ∧
    Sparse.generatePdfReq [baseEmr] [] c10ReqA (Except.ok "logo-bytes") "t0" =
      Sparse.generatePdfReq [baseEmr] [] c10ReqB (Except.ok "logo-bytes") "t0" :=
  claim_C10_no_identity_in_pdf (fun _ k => k) [baseEmr] [] c10ReqA c10ReqB
    (Except.ok "logo-bytes") "t0" rfl rfl rfl rfl rfl rfl
